import Mathlib

/-!
Shallow embedding of the server-side OAuth/PKCE token lifecycle manager of the
react-router-auth-template repository, together with proofs of the behavioural
properties stated in its design specification.

The embedding follows the TypeScript sources:
* frontend/modules/auth/src/utils.ts      — PKCE challenge generation
* frontend/modules/auth/src/msal-provider.ts — logout, generateAuthorizationUrl,
  exchangeCodeForTokens, refreshAccessToken, getMetadata
* frontend/modules/auth/src/msal-cache-client.ts — distributed cache adapter
* the session layer's ensureUserHasApiAccess gate

JavaScript-specific behaviour (truthiness of empty strings and of 0, the
`||` / `??` operators, `String.prototype.includes`) is modelled explicitly.
External library primitives (Node's SHA-256 digest, MSAL's URL serializer, the
network) are passed in as explicit parameters or oracles so that every
repository-level branch remains faithfully represented.
-/

namespace Auth

/-! ## JavaScript string and truthiness helpers -/

/-- Whether the character list `sub` occurs at the start of `l`. -/
def listPrefixOf : List Char → List Char → Bool
  | [], _ => true
  | _ :: _, [] => false
  | a :: as, b :: bs => a = b && listPrefixOf as bs

/-- Whether the character list `sub` occurs contiguously anywhere inside `l`. -/
def listContainsSub (sub : List Char) : List Char → Bool
  | [] => listPrefixOf sub []
  | a :: as => listPrefixOf sub (a :: as) || listContainsSub sub as

/-- Model of JavaScript `s.includes(sub)`: substring containment. -/
def jsIncludes (s sub : String) : Bool :=
  listContainsSub sub.toList s.toList

/-- Model of JavaScript `s.startsWith(pre)`. -/
def jsStartsWith (s pre : String) : Bool :=
  listPrefixOf pre.toList s.toList

/-- JavaScript truthiness of a possibly-absent string: `undefined`, `null`
and the empty string are falsy. -/
def jsTruthyStr : Option String → Bool
  | none => false
  | some s => decide (s ≠ "")

/-- JavaScript truthiness of a possibly-absent number: `undefined` and `0`
are falsy. -/
def jsTruthyInt : Option Int → Bool
  | none => false
  | some n => decide (n ≠ 0)

/-- JavaScript `o || d` for a possibly-absent string `o`. -/
def jsOrElse (o : Option String) (d : String) : String :=
  match o with
  | none => d
  | some s => if s = "" then d else s

/-- JavaScript `s || d` for a present string `s` (empty string falls back). -/
def jsStrOr (s d : String) : String :=
  if s = "" then d else s

/-! ## PKCE utility (utils.ts)

`generateCodeChallenge` hashes the verifier with SHA-256
(`crypto.createHash` — a Node library primitive, passed here as the
parameter `sha256`, returning the digest as a byte list), converts the
digest to base64 (`Buffer.toString`), then applies the three regex
replacements of the source. -/

/-- The base64 character table used by `Buffer.toString` for base64 output. -/
def base64Chars : List Char :=
  "ABCDEFGHIJKLMNOPQRSTUVWXYZabcdefghijklmnopqrstuvwxyz0123456789+/".toList

/-- The base64 digit for a 6-bit group. -/
def b64Char (n : Nat) : Char := base64Chars.getD (n % 64) 'A'

/-- Standard base64 encoding of a byte list (with `=` padding), as produced
by `Buffer.from(bytes).toString(base64)`. -/
def base64Encode : List Nat → List Char
  | [] => []
  | [b1] =>
    let n := b1 % 256 * 65536
    [b64Char (n / 262144), b64Char (n / 4096), '=', '=']
  | [b1, b2] =>
    let n := b1 % 256 * 65536 + b2 % 256 * 256
    [b64Char (n / 262144), b64Char (n / 4096), b64Char (n / 64), '=']
  | b1 :: b2 :: b3 :: bs =>
    let n := b1 % 256 * 65536 + b2 % 256 * 256 + b3 % 256
    b64Char (n / 262144) :: b64Char (n / 4096) :: b64Char (n / 64) ::
      b64Char n :: base64Encode bs

/-- Model of the regex replacement `replace` with a single-character global
pattern: every occurrence of `old` becomes `new`. -/
def replaceChar (old new : Char) (l : List Char) : List Char :=
  l.map fun c => if c = old then new else c

/-- Model of the regex replacement removing one trailing run of `=`. -/
def dropTrailingEq (l : List Char) : List Char :=
  (l.reverse.dropWhile fun c => c = '=').reverse

/-- Shallow embedding of `generateCodeChallenge` (utils.ts): SHA-256 the
verifier, base64-encode the digest, then `+`→`-`, `/`→`_` and strip the
trailing `=` padding. -/
def generateCodeChallenge (sha256 : String → List Nat) (verifier : String) : String :=
  let verifierHash := sha256 verifier
  String.mk
    (dropTrailingEq (replaceChar '/' '_' (replaceChar '+' '-'
      (base64Encode verifierHash))))

/-- The challenge as the specification words it: base64url(SHA-256(verifier))
with no padding, `+`→`-`, `/`→`_`. -/
def specBase64UrlOfDigest (digest : List Nat) : String :=
  String.mk
    (dropTrailingEq (replaceChar '/' '_' (replaceChar '+' '-'
      (base64Encode digest))))

/-! ## Data model

The session is the dynamic key-value bag of the web-session subsystem; the
auth code uses exactly the keys below, so it is embedded as a record of
optional fields (`none` = key absent). -/

/-- Application-level identity stored under the session key `user`. -/
structure UserData where
  uniqueId : String := ""
  displayName : String := ""
  email : String := ""
  roles : List String := []
  apiToken : Option String := none
  apiTokenExpiresAt : Option Int := none
deriving Repr, DecidableEq

/-- The session keys read or written by the auth module. -/
structure Session where
  codeVerifier : Option String := none
  state : Option String := none
  returnUrl : Option String := none
  homeAccountId : Option String := none
  user : Option UserData := none
deriving Repr, DecidableEq

/-- An MSAL account entity as seen by the provider functions (only the
fields the repository reads). -/
structure Account where
  homeAccountId : String
  username : String := ""
deriving Repr, DecidableEq, BEq

/-- An MSAL `AuthenticationResult` restricted to the fields the repository
reads. -/
structure AuthResult where
  account : Option Account := none
  accessToken : String := ""
  uniqueId : String := ""
deriving Repr, DecidableEq

/-- The distinct failure exits of the auth module, one constructor per
throw site.  `authProviderError` carries the message and code built at
msal-provider.ts line 193; `invalidReturnPath` is the `Invalid return URL`
throw inside `logout`; `sessionKeyMissing` is the throw of `session.get`
on an absent key; the remaining constructors are the `createAuthError`
rethrow sites (CALLBACK_ERROR, TOKEN_REFRESH_ERROR, METADATA_ERROR). -/
inductive AuthFailure where
  | authProviderError (message code : String)
  | callbackError
  | tokenRefreshError
  | invalidReturnPath
  | sessionKeyMissing (key : String)
  | metadataError
  | cacheBackendError
deriving Repr, DecidableEq

/-- The scopes default `config.auth.scopes || [...]` (an empty configured
array is truthy in JavaScript, so only an absent configuration falls back). -/
def defaultScopes : List String := ["openid", "profile", "email", "offline_access"]

/-! ## Distributed cache adapter (msal-cache-client.ts) and its Redis backend -/

/-- The Redis backend: an association list of keys to values plus a flag
modelling a backend outage (every command throws while it is set). -/
structure CacheBackend where
  store : List (String × String) := []
  failing : Bool := false
deriving Repr, DecidableEq

/-- Raw Redis `GET`: `null` for a missing key, a thrown error during an
outage. -/
def redisGet (b : CacheBackend) (key : String) : Except Unit (Option String) :=
  if b.failing then .error ()
  else .ok ((b.store.find? fun kv => kv.1 = key).map fun kv => kv.2)

/-- Raw Redis `SET`: stores the value and replies `OK`, or throws during an
outage. -/
def redisSet (b : CacheBackend) (key value : String) :
    Except Unit (String × CacheBackend) :=
  if b.failing then .error ()
  else .ok ("OK", { b with store := (key, value) :: b.store.filter fun kv => ¬ kv.1 = key })

/-- `get` of the MSAL cache client: empty key is a no-op, a missing key or
any backend error degrades to the empty string.  The second component
records whether the backend was touched. -/
def msalCacheGet (b : CacheBackend) (key : String) : String × Bool :=
  if key = "" then ("", false)
  else
    match redisGet b key with
    | .error _ => ("", true)
    | .ok v => (jsOrElse v "", true)

/-- `set` of the MSAL cache client: empty key is a no-op, backend errors are
swallowed and reported as the empty string.  Returns the reply string, the
backend after the call, and whether the backend was touched. -/
def msalCacheSet (b : CacheBackend) (key value : String) :
    String × CacheBackend × Bool :=
  if key = "" then ("", b, false)
  else
    match redisSet b key value with
    | .error _ => ("", b, true)
    | .ok (reply, b1) => (jsStrOr reply "", b1, true)

/-! ## Metadata resolver (getMetadata in msal-provider.ts)

`getMetadata` talks to the raw Redis client (string or `null` results) and
to the two public discovery endpoints.  A fetched discovery document is a
parsed JSON object; a cached one is a string.  `JsVal` carries both shapes
so the `typeof` test and the truthiness tests of the source are explicit. -/

/-- A JavaScript value as it flows through `getMetadata`: a string from the
cache, a parsed JSON object (carried with its serialization), or `null`. -/
inductive JsVal where
  | vstr (s : String)
  | vobj (json : String)
  | vnull
deriving Repr, DecidableEq

/-- JavaScript truthiness: objects are always truthy, the empty string and
`null` are falsy. -/
def jsTruthy : JsVal → Bool
  | .vstr s => decide (s ≠ "")
  | .vobj _ => true
  | .vnull => false

/-- `JSON.stringify`; in `getMetadata` it is only ever applied to the
object results of a fetch, for which it returns the carried serialization. -/
def jsonStringify : JsVal → String
  | .vstr s => "\"" ++ s ++ "\""
  | .vobj j => j
  | .vnull => "null"

/-- The `typeof x === string ? x : JSON.stringify(x)` conversion of
`getMetadata`'s return statement. -/
def jsToMetaString : JsVal → String
  | .vstr s => s
  | v => jsonStringify v

/-- The result of a raw Redis `GET` as a JavaScript value. -/
def jsOfRedis : Option String → JsVal
  | none => .vnull
  | some s => .vstr s

/-- The metadata cache key `{clientId}.{tenantId}.discovery-metadata`. -/
def discoveryKey (clientId tenantId : String) : String :=
  clientId ++ "." ++ tenantId ++ ".discovery-metadata"

/-- The metadata cache key `{clientId}.{tenantId}.authority-metadata`. -/
def authorityKey (clientId tenantId : String) : String :=
  clientId ++ "." ++ tenantId ++ ".authority-metadata"

/-- State threaded through `getMetadata`: the Redis backend plus a counter
of network fetches issued to the discovery endpoints. -/
structure MetaEnv where
  backend : CacheBackend := {}
  fetchCount : Nat := 0
deriving Repr, DecidableEq

/-- The two metadata cache entries both present and truthy. -/
def metadataCached (b : CacheBackend) (clientId tenantId : String) : Bool :=
  match redisGet b (discoveryKey clientId tenantId),
        redisGet b (authorityKey clientId tenantId) with
  | .ok cd, .ok am => jsTruthy (jsOfRedis cd) && jsTruthy (jsOfRedis am)
  | _, _ => false

/-- The record returned by `getMetadata`. -/
structure MetadataResult where
  cloudDiscoveryMetadata : String
  authorityMetadata : String
deriving Repr, DecidableEq

/-- Shallow embedding of `getMetadata`: read both cache keys; if either is
falsy, fetch both discovery documents (the network is the pair of oracle
arguments, each `.error` when its endpoint returns a non-success status,
which the source rethrows as METADATA_ERROR) and, both fetch results being
truthy objects, write both serializations back to the cache before
returning. -/
def getMetadata (clientId tenantId : String)
    (fetchCloudResult fetchOidcResult : Except Unit String)
    (env : MetaEnv) : Except AuthFailure MetadataResult × MetaEnv :=
  match redisGet env.backend (discoveryKey clientId tenantId),
        redisGet env.backend (authorityKey clientId tenantId) with
  | .error _, _ => (.error .cacheBackendError, env)
  | .ok _, .error _ => (.error .cacheBackendError, env)
  | .ok cd0, .ok am0 =>
    let cd := jsOfRedis cd0
    let am := jsOfRedis am0
    if jsTruthy cd && jsTruthy am then
      (.ok ⟨jsToMetaString cd, jsToMetaString am⟩, env)
    else
      let env1 : MetaEnv := { env with fetchCount := env.fetchCount + 2 }
      match fetchCloudResult, fetchOidcResult with
      | .error _, _ => (.error .metadataError, env1)
      | .ok _, .error _ => (.error .metadataError, env1)
      | .ok cloudJson, .ok oidcJson =>
        let cd1 := JsVal.vobj cloudJson
        let am1 := JsVal.vobj oidcJson
        if jsTruthy cd1 && jsTruthy am1 then
          match redisSet env1.backend (discoveryKey clientId tenantId) (jsonStringify cd1) with
          | .error _ => (.error .cacheBackendError, env1)
          | .ok (_, b1) =>
            match redisSet b1 (authorityKey clientId tenantId) (jsonStringify am1) with
            | .error _ => (.error .cacheBackendError, { env1 with backend := b1 })
            | .ok (_, b2) =>
              (.ok ⟨jsToMetaString cd1, jsToMetaString am1⟩, { env1 with backend := b2 })
        else
          (.ok ⟨jsToMetaString cd1, jsToMetaString am1⟩, env1)

/-! ## Token lifecycle manager (msal-provider.ts)

The MSAL library calls (`getAuthCodeUrl`, `acquireTokenByCode`,
`acquireTokenSilent`) are oracles passed as function parameters; the PKCE
verifier and the state nonce produced by the secure random source are
likewise parameters.  Each operation returns its result together with the
session (and, where relevant, the token-cache account list) after the call. -/

/-- The `authCodeUrlParameters` record built by `generateAuthorizationUrl`. -/
structure AuthorizationUrlRequest where
  scopes : List String
  redirectUri : String
  codeChallenge : String
  codeChallengeMethod : String
  state : String
deriving Repr, DecidableEq

/-- `authCodeUrlParameters` as a function of the configuration and of the
freshly generated challenge and state. -/
def authCodeUrlParameters (scopes : Option (List String)) (redirectUri challenge st : String) :
    AuthorizationUrlRequest :=
  { scopes := scopes.getD defaultScopes
    redirectUri := redirectUri
    codeChallenge := challenge
    codeChallengeMethod := "S256"
    state := st }

/-- Shallow embedding of `generateAuthorizationUrl`: generate the PKCE pair
and state (the random source supplies `verifier` and `st`), build the
request, obtain the URL from the provider library (`getAuthCodeUrl`), and
only then store `codeVerifier`, `returnUrl` and `state` in the session.
A library failure propagates and the session is returned as it was.
`session.set(returnUrl, returnUrl ?? /)` stores the argument itself, the
argument being a non-null string. -/
def generateAuthorizationUrl (scopes : Option (List String)) (redirectUri : String)
    (s : Session) (returnUrl : String) (verifier st : String)
    (sha256 : String → List Nat)
    (getAuthCodeUrl : AuthorizationUrlRequest → Except Unit String) :
    Except Unit String × Session :=
  let challenge := generateCodeChallenge sha256 verifier
  match getAuthCodeUrl (authCodeUrlParameters scopes redirectUri challenge st) with
  | .error e => (.error e, s)
  | .ok url =>
    let s1 : Session :=
      { s with codeVerifier := some verifier, returnUrl := some returnUrl, state := some st }
    (.ok url, s1)

/-- Model of MSAL's `getAuthCodeUrl` serializer.  Modelled from the spec:
the MSAL library itself is not part of the repository; per the
specification's external-interface section the authorization endpoint URL
is `{authority}/oauth2/v2.0/authorize` with query parameters including
`code_challenge`, `code_challenge_method` and `state`. -/
def msalGetAuthCodeUrl (tenantId clientId : String) (req : AuthorizationUrlRequest) :
    Except Unit String :=
  .ok ("https://login.microsoftonline.com/" ++ tenantId ++ "/oauth2/v2.0/authorize"
    ++ "?client_id=" ++ clientId
    ++ "&scope=" ++ String.intercalate " " req.scopes
    ++ "&redirect_uri=" ++ req.redirectUri
    ++ "&code_challenge=" ++ req.codeChallenge
    ++ "&code_challenge_method=" ++ req.codeChallengeMethod
    ++ "&state=" ++ req.state)

/-- The query parameters `exchangeCodeForTokens` reads from the callback
request URL. -/
structure CallbackQuery where
  code : Option String := none
  error : Option String := none
  errorDescription : Option String := none
deriving Repr, DecidableEq

/-- The `AuthorizationCodeRequest` passed to `acquireTokenByCode`. -/
structure TokenRequest where
  code : Option String
  scopes : List String
  redirectUri : String
  codeVerifier : String
  state : String
deriving Repr, DecidableEq

/-- Shallow embedding of `exchangeCodeForTokens`.  If the callback carries
an `error` parameter the function throws immediately (before any session
access); otherwise it reads `codeVerifier` (`session.get`, throwing when
absent), `returnUrl` (`session.find ?? /`) and `state` (`session.get`),
unsets all three, and only then performs the token exchange; on success it
stores the account's home-account id, on failure it rethrows as
CALLBACK_ERROR. -/
def exchangeCodeForTokens (scopes : Option (List String)) (redirectUri : String)
    (s : Session) (cb : CallbackQuery)
    (acquireTokenByCode : TokenRequest → Except Unit AuthResult) :
    Except AuthFailure (AuthResult × String) × Session :=
  match cb.error with
  | some e =>
    (.error (.authProviderError
        ("Authentication failed: " ++ jsOrElse cb.errorDescription e) e), s)
  | none =>
    match s.codeVerifier with
    | none => (.error (.sessionKeyMissing "codeVerifier"), s)
    | some codeVerifier =>
      let returnUrl := s.returnUrl.getD "/"
      match s.state with
      | none => (.error (.sessionKeyMissing "state"), s)
      | some st =>
        let s1 : Session := { s with codeVerifier := none, returnUrl := none, state := none }
        match acquireTokenByCode
            { code := cb.code, scopes := scopes.getD defaultScopes,
              redirectUri := redirectUri, codeVerifier := codeVerifier, state := st } with
        | .ok response =>
          let s2 : Session :=
            { s1 with homeAccountId := response.account.map fun a => a.homeAccountId }
          (.ok (response, jsStrOr returnUrl "/"), s2)
        | .error _ => (.error .callbackError, s1)

/-- The account selection of `refreshAccessToken`: with a truthy session
`homeAccountId` the first cached account whose home-account id contains it
as a substring, otherwise the first cached account. -/
def selectedAccount (s : Session) (accounts : List Account) : Option Account :=
  let homeAccountId := (s.homeAccountId.getD "")
  if homeAccountId ≠ "" then
    accounts.find? fun acc => jsIncludes acc.homeAccountId homeAccountId
  else accounts.head?

/-- Shallow embedding of `refreshAccessToken`: `null` when the partitioned
token cache holds no account or no account matches, otherwise a silent
acquisition with the selected account, rethrowing failures as
TOKEN_REFRESH_ERROR. -/
def refreshAccessToken (scopes : Option (List String)) (s : Session)
    (accounts : List Account)
    (acquireTokenSilent : Account → List String → Except Unit AuthResult) :
    Except AuthFailure (Option AuthResult) :=
  if accounts.length = 0 then .ok none
  else
    match selectedAccount s accounts with
    | none => .ok none
    | some account =>
      match acquireTokenSilent account (scopes.getD defaultScopes) with
      | .ok response => .ok (some response)
      | .error _ => .error .tokenRefreshError

/-- The logout URL: the provider logout endpoint for the tenant plus the
`post_logout_redirect_uri` query parameter set on it. -/
structure LogoutUrl where
  tenantId : String
  postLogoutRedirectUri : String
deriving Repr, DecidableEq

/-- Shallow embedding of `logout`: reject a `returnPath` containing `://`
or starting with `//` (this throw is reached before any cache or provider
interaction); prefix `/` when missing; remove the cached account matching
the session's truthy `homeAccountId`, if any; unset `homeAccountId`; build
the provider logout URL carrying `origin + returnPath` as the post-logout
redirect. -/
def logout (tenantId : String) (s : Session) (origin returnPath : String)
    (accounts : List Account) :
    Except AuthFailure LogoutUrl × Session × List Account :=
  if jsIncludes returnPath "://" || jsStartsWith returnPath "//" then
    (.error .invalidReturnPath, s, accounts)
  else
    let returnPath1 := if jsStartsWith returnPath "/" then returnPath else "/" ++ returnPath
    let absoluteReturnUrl := origin ++ returnPath1
    let accounts1 :=
      if jsTruthyStr s.homeAccountId then
        match accounts.find? fun acc => acc.homeAccountId = s.homeAccountId.getD "" with
        | some account => accounts.erase account
        | none => accounts
      else accounts
    let s1 : Session := { s with homeAccountId := none }
    (.ok { tenantId := tenantId, postLogoutRedirectUri := absoluteReturnUrl }, s1, accounts1)

/-! ## Session layer: the ensure-API-access gate (auth-utils of the app)

`ensureUserHasApiAccess` re-fetches the backend JWT when the cached one is
absent or close to expiry: it first confirms the provider token via
`refreshAccessToken`, then POSTs to the enrichment endpoint, verifies the
returned JWT (`jwtVerify`, an oracle here) and stores token, expiry and the
normalized roles back into the session. -/

/-- The `role` claim of a verified JWT payload: absent, a single string, or
an array of strings. -/
inductive RoleClaim where
  | absent
  | str (s : String)
  | arr (xs : List String)
deriving Repr, DecidableEq

/-- Role-claim normalization (the `if (payloadObj.role)` block): a falsy
claim (absent or the empty string) yields no roles, a truthy string yields
the singleton, an array is pushed element-wise (arrays are always truthy,
so an empty array also yields the empty list). -/
def extractRoles : RoleClaim → List String
  | .absent => []
  | .str s => if s = "" then [] else [s]
  | .arr xs => xs

/-- The refetch condition of the gate:
`!user.apiToken || (user.apiToken && user.apiTokenExpiresAt &&
user.apiTokenExpiresAt - Date.now() < 5 * 60 * 1000)`. -/
def apiTokenNeedsRefresh (user : UserData) (now : Int) : Bool :=
  !(jsTruthyStr user.apiToken) ||
    (jsTruthyStr user.apiToken && jsTruthyInt user.apiTokenExpiresAt &&
      decide (user.apiTokenExpiresAt.getD 0 - now < 5 * 60 * 1000))

/-- The externally observable calls of the gate, in order. -/
inductive GateEffect where
  | refreshAccessTokenCall
  | enrichTokenFetch (bearer : String)
deriving Repr, DecidableEq

/-- How the gate exits. -/
inductive GateOutcome where
  | granted (user : UserData)
  | redirectedToLogin
  | refreshThrew
  | backendAuthFailed (status : Nat)
  | verifyFailed
  | apiTokenMissing
deriving Repr, DecidableEq

/-- The enrichment endpoint's HTTP response as the gate reads it. -/
structure EnrichResponse where
  ok : Bool
  status : Nat := 200
  token : String := ""
deriving Repr, DecidableEq

/-- The verified JWT payload fields the gate reads: the `role` claim and
`exp` in epoch seconds. -/
structure JwtPayload where
  role : RoleClaim := .absent
  exp : Int := 0
deriving Repr, DecidableEq

/-- Shallow embedding of `ensureUserHasApiAccess`.  `now` is `Date.now()`;
`refreshOutcome` is the provider's refresh result (`.error` when it threw,
`.ok none` when no cached account exists); `enrich` is the backend
response; `verify` the `jwtVerify` outcome.  Returns the exit, the session
after the call, and the ordered list of external calls made. -/
def ensureUserHasApiAccess (s : Session) (now : Int)
    (refreshOutcome : Except Unit (Option AuthResult))
    (enrich : EnrichResponse)
    (verify : Except Unit JwtPayload) :
    GateOutcome × Session × List GateEffect :=
  match s.user with
  | none => (.redirectedToLogin, s, [])
  | some user =>
    if apiTokenNeedsRefresh user now then
      match refreshOutcome with
      | .error _ => (.refreshThrew, s, [.refreshAccessTokenCall])
      | .ok none => (.redirectedToLogin, s, [.refreshAccessTokenCall])
      | .ok (some auth) =>
        let effs := [GateEffect.refreshAccessTokenCall, .enrichTokenFetch auth.accessToken]
        if enrich.ok = false then (.backendAuthFailed enrich.status, s, effs)
        else
          match verify with
          | .error _ => (.verifyFailed, s, effs)
          | .ok payload =>
            let roles := extractRoles payload.role
            let user1 : UserData :=
              { user with apiToken := some enrich.token,
                          apiTokenExpiresAt := some (payload.exp * 1000),
                          roles := roles }
            let s1 : Session := { s with user := some user1 }
            if jsTruthyStr user1.apiToken = false then (.apiTokenMissing, s1, effs)
            else (.granted user1, s1, effs)
    else
      if jsTruthyStr user.apiToken = false then (.apiTokenMissing, s, [])
      else (.granted user, s, [])

/-! ## Concrete oracles used by the closed witness statements -/

/-- A provider-library URL call that always rejects. -/
def failingAuthCodeUrl : AuthorizationUrlRequest → Except Unit String :=
  fun _ => .error ()

/-- A token-endpoint exchange that always rejects. -/
def failingTokenExchange : TokenRequest → Except Unit AuthResult :=
  fun _ => .error ()

/-- A silent acquisition returning a fixed result for the given account. -/
def okSilentAcquire : Account → List String → Except Unit AuthResult :=
  fun a _ => .ok { account := some a, accessToken := "tok", uniqueId := "u" }

/-- A digest oracle for witnesses. -/
def constSha256 : String → List Nat :=
  fun _ => [0, 1, 2]

/-- A token-endpoint exchange that succeeds with a fixed account. -/
def okTokenExchange : TokenRequest → Except Unit AuthResult :=
  fun _ => .ok { account := some { homeAccountId := "uid.tid", username := "u" },
                 accessToken := "at", uniqueId := "uid" }

/-- A pending-login session used by closed statements. -/
def samplePendingSession : Session :=
  { codeVerifier := some "v", state := some "st", returnUrl := some "/dashboard" }

/-- A cached-account pair used by closed statements. -/
def sampleAccounts : List Account :=
  [{ homeAccountId := "uid-1.tenant-1", username := "u1" },
   { homeAccountId := "uid-2.tenant-2", username := "u2" }]

/-- A populated healthy cache backend used by closed statements. -/
def sampleBackend : CacheBackend :=
  { store := [("k", "cached-value")], failing := false }

/-- An authenticated user whose backend JWT expires 30 seconds from
`sampleNow`, used by closed statements. -/
def sampleUser : UserData :=
  { uniqueId := "uid", displayName := "D", email := "e@x", roles := [],
    apiToken := some "jwt", apiTokenExpiresAt := some 1000030000 }

/-- The clock instant paired with `sampleUser`. -/
def sampleNow : Int := 1000000000

/-- A session holding `sampleUser`. -/
def sampleUserSession : Session :=
  { homeAccountId := some "uid-1.tenant-1", user := some sampleUser }

/-- A successful provider refresh result used by closed statements. -/
def sampleRefreshOk : Except Unit (Option AuthResult) :=
  .ok (some { account := some { homeAccountId := "uid-1.tenant-1", username := "u1" },
              accessToken := "provider-token", uniqueId := "uid" })

/-- A successful enrichment response used by closed statements. -/
def sampleEnrich : EnrichResponse :=
  { ok := true, status := 200, token := "new-jwt" }

/-- A verified payload used by closed statements. -/
def samplePayload : JwtPayload :=
  { role := .str "admin", exp := 1000090 }

/-! ## Helper lemmas -/

theorem listPrefixOf_append (a t : List Char) : listPrefixOf a (a ++ t) = true := by
  induction a with
  | nil => rfl
  | cons x xs ih => simp [listPrefixOf, ih]

theorem listContainsSub_of_prefixOf (sub l : List Char) (h : listPrefixOf sub l = true) :
    listContainsSub sub l = true := by
  cases l with
  | nil => simpa [listContainsSub] using h
  | cons a as => simp [listContainsSub, h]

theorem listContainsSub_append (pre sub suf : List Char) :
    listContainsSub sub (pre ++ sub ++ suf) = true := by
  induction pre with
  | nil =>
    simpa using listContainsSub_of_prefixOf _ _ (listPrefixOf_append sub suf)
  | cons x xs ih =>
    simpa [listContainsSub] using Or.inr ih

theorem listContainsSub_nil_left (l : List Char) : listContainsSub [] l = true := by
  cases l <;> simp [listContainsSub, listPrefixOf]

theorem string_toList_append (a b : String) : (a ++ b).toList = a.toList ++ b.toList := by
  simp [String.toList, String.data_append]

/-- `s.includes(sub)` holds whenever `s` decomposes as `pre ++ sub ++ suf`. -/
theorem jsIncludes_of_decomp (s pre sub suf : String) (h : s = pre ++ sub ++ suf) :
    jsIncludes s sub = true := by
  subst h
  unfold jsIncludes
  rw [string_toList_append, string_toList_append]
  exact listContainsSub_append _ _ _

/-- `s.includes(sub)` holds whenever `sub` is a suffix of `s`. -/
theorem jsIncludes_of_decomp_suffix (s pre sub : String) (h : s = pre ++ sub) :
    jsIncludes s sub = true := by
  subst h
  unfold jsIncludes
  rw [string_toList_append]
  simpa using listContainsSub_append pre.toList sub.toList []

theorem jsIncludes_empty_right (s : String) : jsIncludes s "" = true := by
  unfold jsIncludes
  exact listContainsSub_nil_left _

theorem head?_dropWhile_false {p : Char → Bool} :
    ∀ {l : List Char} {a : Char}, (List.dropWhile p l).head? = some a → p a = false := by
  intro l
  induction l with
  | nil => intro a h; simp [List.dropWhile] at h
  | cons b t ih =>
    intro a h
    by_cases hb : p b
    · rw [List.dropWhile_cons_of_pos hb] at h
      exact ih h
    · rw [List.dropWhile_cons_of_neg hb] at h
      simp at h
      subst h
      simpa using hb

theorem mem_dropTrailingEq {c : Char} {l : List Char} (h : c ∈ dropTrailingEq l) : c ∈ l := by
  unfold dropTrailingEq at h
  rw [List.mem_reverse] at h
  have hs := List.dropWhile_sublist (l := l.reverse) (fun ch => ch = '=')
  have := hs.mem h
  rwa [List.mem_reverse] at this

theorem not_mem_replaceChar_self {old new : Char} (h : new ≠ old) (l : List Char) :
    old ∉ replaceChar old new l := by
  unfold replaceChar
  intro hmem
  rcases List.mem_map.mp hmem with ⟨c, _, hc⟩
  by_cases hco : c = old
  · rw [if_pos hco] at hc; exact h hc
  · rw [if_neg hco] at hc; exact hco hc

theorem not_mem_replaceChar_of_not_mem {old new c : Char} {l : List Char}
    (hc : c ∉ l) (hn : c ≠ new) : c ∉ replaceChar old new l := by
  unfold replaceChar
  intro hmem
  rcases List.mem_map.mp hmem with ⟨d, hd, hdc⟩
  by_cases hdo : d = old
  · rw [if_pos hdo] at hdc; exact hn hdc.symm
  · rw [if_neg hdo] at hdc; exact hc (hdc ▸ hd)

theorem bool_and_false {x y : Bool} (h : (x && y) = false) : x = false ∨ y = false := by
  cases x <;> cases y <;> simp_all

theorem getLast?_dropTrailingEq (l : List Char) :
    (dropTrailingEq l).getLast? ≠ some '=' := by
  unfold dropTrailingEq
  rw [List.getLast?_reverse]
  intro h
  have := head?_dropWhile_false h
  simp at this

/-! ## Claim theorems -/

/-- C3: `generateCodeChallenge(v)` equals the base64url encoding of
SHA-256(v) with padding removed, `+` replaced by `-` and `/` by `_`;
calling it twice with the same verifier yields the same challenge; and the
result never contains `+` or `/` and never ends in `=`. -/
theorem c3_generateCodeChallenge_spec (sha256 : String → List Nat) (v : String) :
    generateCodeChallenge sha256 v = specBase64UrlOfDigest (sha256 v) ∧
    generateCodeChallenge sha256 v = generateCodeChallenge sha256 v ∧
    '+' ∉ (generateCodeChallenge sha256 v).toList ∧
    '/' ∉ (generateCodeChallenge sha256 v).toList ∧
    (generateCodeChallenge sha256 v).toList.getLast? ≠ some '=' := by
  refine ⟨rfl, rfl, ?_, ?_, ?_⟩
  · intro hmem
    have h1 : '+' ∈ replaceChar '/' '_'
        (replaceChar '+' '-' (base64Encode (sha256 v))) :=
      mem_dropTrailingEq hmem
    have h2 : '+' ∉ replaceChar '+' '-' (base64Encode (sha256 v)) :=
      not_mem_replaceChar_self (by decide) _
    exact not_mem_replaceChar_of_not_mem h2 (by decide) h1
  · intro hmem
    have h1 : '/' ∈ replaceChar '/' '_'
        (replaceChar '+' '-' (base64Encode (sha256 v))) :=
      mem_dropTrailingEq hmem
    exact not_mem_replaceChar_self (by decide) _ h1
  · exact getLast?_dropTrailingEq _

/-- C5: role-claim normalization in the enrichment exchange: the string
claim `admin` yields `[admin]`, the array claim `[admin, user]` yields
`[admin, user]`, an absent claim yields `[]`. -/
theorem c5_extractRoles_normalization :
    extractRoles (RoleClaim.str "admin") = ["admin"] ∧
    extractRoles (RoleClaim.arr ["admin", "user"]) = ["admin", "user"] ∧
    extractRoles RoleClaim.absent = [] := by
  refine ⟨?_, rfl, rfl⟩
  simp [extractRoles]

/-- C6: the cache adapter's get and set never throw: the empty key is a
no-op returning the empty string without touching the backend; a backend
outage degrades get and set to the empty string (set leaving the store as
it was); and in a healthy backend get returns the stored value, or the
empty string when the key is missing. -/
theorem c6_cache_adapter_degrades (b : CacheBackend) (key value : String) :
    (key = "" →
      msalCacheGet b key = ("", false) ∧ msalCacheSet b key value = ("", b, false)) ∧
    (b.failing = true → key ≠ "" →
      msalCacheGet b key = ("", true) ∧ msalCacheSet b key value = ("", b, true)) ∧
    (b.failing = false → key ≠ "" →
      (∀ v, redisGet b key = .ok (some v) → msalCacheGet b key = (v, true)) ∧
      (redisGet b key = .ok none → msalCacheGet b key = ("", true))) := by
  refine ⟨?_, ?_, ?_⟩
  · intro hk
    simp [msalCacheGet, msalCacheSet, hk]
  · intro hf hk
    simp [msalCacheGet, msalCacheSet, redisGet, redisSet, hf, hk]
  · intro hf hk
    constructor
    · intro v hv
      by_cases hve : v = ""
      · simp [msalCacheGet, hk, hv, jsOrElse, hve]
      · simp [msalCacheGet, hk, hv, jsOrElse, hve]
    · intro hv
      simp [msalCacheGet, hk, hv, jsOrElse]

/-- Witness for C6 at a concrete healthy backend and stored key. -/
theorem c6_cache_adapter_degrades_witness :
    msalCacheGet sampleBackend "k" = ("cached-value", true) ∧
    msalCacheGet { sampleBackend with failing := true } "k" = ("", true) ∧
    msalCacheGet sampleBackend "" = ("", false) := by
  refine ⟨?_, ?_, ?_⟩
  · exact ((c6_cache_adapter_degrades sampleBackend "k" "x").2.2 rfl (by decide)).1
      "cached-value" rfl
  · exact ((c6_cache_adapter_degrades { sampleBackend with failing := true } "k" "x").2.1
      rfl (by decide)).1
  · exact ((c6_cache_adapter_degrades sampleBackend "" "x").1 rfl).1

/-- C4: `refreshAccessToken` returns `null` on an empty partitioned cache;
with a session `homeAccountId` it selects the first cached account whose
home-account id contains the session value as a substring, otherwise the
first cached account; and when no account matches it returns `null`
without throwing. -/
theorem c4_refreshAccessToken_selection (scopes : Option (List String)) (s : Session)
    (accounts : List Account)
    (acq : Account → List String → Except Unit AuthResult) :
    (accounts = [] → refreshAccessToken scopes s accounts acq = .ok none) ∧
    (∀ h, s.homeAccountId = some h → accounts ≠ [] →
      selectedAccount s accounts =
        accounts.find? fun acc => jsIncludes acc.homeAccountId h) ∧
    (s.homeAccountId = none → selectedAccount s accounts = accounts.head?) ∧
    (selectedAccount s accounts = none →
      refreshAccessToken scopes s accounts acq = .ok none) := by
  refine ⟨?_, ?_, ?_, ?_⟩
  · intro h
    simp [refreshAccessToken, h]
  · intro h hh hne
    by_cases h0 : h = ""
    · subst h0
      rcases accounts with _ | ⟨a, as⟩
      · exact absurd rfl hne
      · rw [@List.find?_cons_of_pos Account (fun acc => jsIncludes acc.homeAccountId "") a as
          (jsIncludes_empty_right a.homeAccountId)]
        simp [selectedAccount, hh]
    · simp [selectedAccount, hh, h0]
  · intro hh
    simp [selectedAccount, hh]
  · intro hsel
    rcases accounts with _ | ⟨a, as⟩
    · simp [refreshAccessToken]
    · simp [refreshAccessToken, hsel]

/-- Witness for C4 at a concrete two-account cache with a substring
session id. -/
theorem c4_refreshAccessToken_selection_witness :
    refreshAccessToken none { homeAccountId := some "x" } [] okSilentAcquire = .ok none ∧
    selectedAccount { homeAccountId := some "uid-2" } sampleAccounts =
      (sampleAccounts.find? fun acc => jsIncludes acc.homeAccountId "uid-2") ∧
    selectedAccount { homeAccountId := none } sampleAccounts = sampleAccounts.head? := by
  refine ⟨?_, ?_, ?_⟩
  · exact (c4_refreshAccessToken_selection none { homeAccountId := some "x" } []
      okSilentAcquire).1 rfl
  · exact (c4_refreshAccessToken_selection none { homeAccountId := some "uid-2" }
      sampleAccounts okSilentAcquire).2.1 "uid-2" rfl (by decide)
  · exact (c4_refreshAccessToken_selection none { homeAccountId := none }
      sampleAccounts okSilentAcquire).2.2.1 rfl

/-- C10: if the provider library rejects the authorization-URL request,
`generateAuthorizationUrl` propagates the failure and the session is left
exactly as it was — none of `codeVerifier`, `state`, `returnUrl` is
written, because all three session writes happen only after the URL is
obtained. -/
theorem c10_generateAuthorizationUrl_atomic_on_failure
    (scopes : Option (List String)) (redirectUri : String) (s : Session)
    (returnUrl verifier st : String) (sha256 : String → List Nat)
    (getAuthCodeUrl : AuthorizationUrlRequest → Except Unit String)
    (h : getAuthCodeUrl (authCodeUrlParameters scopes redirectUri
          (generateCodeChallenge sha256 verifier) st) = .error ()) :
    generateAuthorizationUrl scopes redirectUri s returnUrl verifier st sha256 getAuthCodeUrl =
      (.error (), s) := by
  simp [generateAuthorizationUrl, h]

/-- Witness for C10 at a concrete failing provider oracle. -/
theorem c10_generateAuthorizationUrl_atomic_on_failure_witness :
    generateAuthorizationUrl none "https://app/cb" {} "/dashboard" "v" "st" constSha256
      failingAuthCodeUrl = (.error (), {}) := by
  exact c10_generateAuthorizationUrl_atomic_on_failure none "https://app/cb" {}
    "/dashboard" "v" "st" constSha256 failingAuthCodeUrl rfl

/-- C1 counterexample: when the callback query carries an `error`
parameter, `exchangeCodeForTokens` throws before touching the session, so
`codeVerifier` (and `state`, `returnUrl`) survive the failed call — the
claimed no-leak invariant does not cover this failure mode. -/
theorem c1_error_param_keeps_verifier_counterexample :
    (exchangeCodeForTokens none "https://app/cb" samplePendingSession
        { code := none, error := some "access_denied",
          errorDescription := some "User cancelled" }
        failingTokenExchange).2.codeVerifier = some "v" ∧
    (exchangeCodeForTokens none "https://app/cb" samplePendingSession
        { code := none, error := some "access_denied",
          errorDescription := some "User cancelled" }
        failingTokenExchange).1 =
      .error (.authProviderError "Authentication failed: User cancelled" "access_denied") := by
  constructor
  · rfl
  · rfl

/-- C1 amended: once `exchangeCodeForTokens` reaches the session-reading
step (no `error` parameter, `codeVerifier` and `state` present), the
session fields `codeVerifier`, `state` and `returnUrl` are all absent
afterwards, whether the token-endpoint exchange succeeds or fails; when
the callback carries an `error` parameter the function fails before any
session access and the session is returned unchanged. -/
theorem c1_exchange_clears_pkce_amended (scopes : Option (List String))
    (redirectUri : String) (s : Session) (cb : CallbackQuery)
    (acq : TokenRequest → Except Unit AuthResult) :
    (∀ e, cb.error = some e →
      (exchangeCodeForTokens scopes redirectUri s cb acq).2 = s) ∧
    (cb.error = none → ∀ cv stv, s.codeVerifier = some cv → s.state = some stv →
      (exchangeCodeForTokens scopes redirectUri s cb acq).2.codeVerifier = none ∧
      (exchangeCodeForTokens scopes redirectUri s cb acq).2.state = none ∧
      (exchangeCodeForTokens scopes redirectUri s cb acq).2.returnUrl = none) := by
  constructor
  · intro e he
    simp [exchangeCodeForTokens, he]
  · intro he cv stv hcv hst
    simp only [exchangeCodeForTokens, he, hcv, hst]
    refine ⟨?_, ?_, ?_⟩ <;> (split <;> simp)

/-- Witness for C1 amended, on a successful concrete exchange. -/
theorem c1_exchange_clears_pkce_amended_witness :
    (exchangeCodeForTokens none "https://app/cb" samplePendingSession
      { code := some "auth-code" } okTokenExchange).2.codeVerifier = none ∧
    (exchangeCodeForTokens none "https://app/cb" samplePendingSession
      { code := some "auth-code" } okTokenExchange).2.state = none ∧
    (exchangeCodeForTokens none "https://app/cb" samplePendingSession
      { code := some "auth-code" } okTokenExchange).2.returnUrl = none := by
  exact (c1_exchange_clears_pkce_amended none "https://app/cb" samplePendingSession
    { code := some "auth-code" } okTokenExchange).2 rfl "v" "st" rfl rfl

/-- C2: `logout` with a `returnPath` containing `://` or starting with
`//` fails on the invalid-return-path check with the session and the token
cache untouched and no provider URL built; any other `returnPath` not
starting with `/` is normalized to start with `/` before the post-logout
redirect URL `origin + returnPath` is built. -/
theorem c2_logout_returnPath_validation (tenantId : String) (s : Session)
    (origin returnPath : String) (accounts : List Account) :
    (jsIncludes returnPath "://" = true ∨ jsStartsWith returnPath "//" = true →
      logout tenantId s origin returnPath accounts = (.error .invalidReturnPath, s, accounts)) ∧
    (jsIncludes returnPath "://" = false → jsStartsWith returnPath "//" = false →
      jsStartsWith returnPath "/" = false →
      (logout tenantId s origin returnPath accounts).1 =
        .ok { tenantId := tenantId,
              postLogoutRedirectUri := origin ++ ("/" ++ returnPath) }) := by
  constructor
  · intro h
    rcases h with h | h <;> simp [logout, h]
  · intro h1 h2 h3
    simp [logout, h1, h2, h3]

/-- Witness for C2 at `returnPath = http://evil.example.com/` (rejected)
and at a schemeless relative path (normalized). -/
theorem c2_logout_returnPath_validation_witness :
    logout "tenant" {} "https://app.example" "http://evil.example.com/" [] =
      (.error .invalidReturnPath, {}, []) ∧
    (logout "tenant" {} "https://app.example" "dashboard" []).1 =
      .ok { tenantId := "tenant",
            postLogoutRedirectUri := "https://app.example" ++ ("/" ++ "dashboard") } := by
  constructor
  · exact (c2_logout_returnPath_validation "tenant" {} "https://app.example"
      "http://evil.example.com/" []).1 (Or.inl (by decide))
  · exact (c2_logout_returnPath_validation "tenant" {} "https://app.example"
      "dashboard" []).2 (by decide) (by decide) (by decide)

/-- C9: after a successful `generateAuthorizationUrl(session, returnUrl)`,
the session holds `codeVerifier`, `state` and `returnUrl` equal to the
fresh PKCE verifier, the fresh state nonce and the argument, and the
returned URL's query string contains `code_challenge_method=S256` and a
`state` parameter equal to the session's stored state value. -/
theorem c9_generateAuthorizationUrl_success (tenantId clientId : String)
    (scopes : Option (List String)) (redirectUri : String) (s : Session)
    (returnUrl verifier st : String) (sha256 : String → List Nat) :
    ∃ url,
      (generateAuthorizationUrl scopes redirectUri s returnUrl verifier st sha256
        (msalGetAuthCodeUrl tenantId clientId)).1 = .ok url ∧
      (generateAuthorizationUrl scopes redirectUri s returnUrl verifier st sha256
        (msalGetAuthCodeUrl tenantId clientId)).2.codeVerifier = some verifier ∧
      (generateAuthorizationUrl scopes redirectUri s returnUrl verifier st sha256
        (msalGetAuthCodeUrl tenantId clientId)).2.state = some st ∧
      (generateAuthorizationUrl scopes redirectUri s returnUrl verifier st sha256
        (msalGetAuthCodeUrl tenantId clientId)).2.returnUrl = some returnUrl ∧
      jsIncludes url "code_challenge_method=S256" = true ∧
      jsIncludes url ("state=" ++ st) = true := by
  refine ⟨"https://login.microsoftonline.com/" ++ tenantId ++ "/oauth2/v2.0/authorize"
      ++ "?client_id=" ++ clientId
      ++ "&scope=" ++ String.intercalate " " (scopes.getD defaultScopes)
      ++ "&redirect_uri=" ++ redirectUri
      ++ "&code_challenge=" ++ generateCodeChallenge sha256 verifier
      ++ "&code_challenge_method=" ++ "S256"
      ++ "&state=" ++ st, rfl, rfl, rfl, rfl, ?_, ?_⟩
  · refine jsIncludes_of_decomp _
      ("https://login.microsoftonline.com/" ++ tenantId ++ "/oauth2/v2.0/authorize"
        ++ "?client_id=" ++ clientId
        ++ "&scope=" ++ String.intercalate " " (scopes.getD defaultScopes)
        ++ "&redirect_uri=" ++ redirectUri
        ++ "&code_challenge=" ++ generateCodeChallenge sha256 verifier
        ++ "&")
      "code_challenge_method=S256"
      ("&state=" ++ st) ?_
    rw [(by decide : ("&code_challenge_method=" : String) = "&" ++ "code_challenge_method=")]
    rw [(by decide :
      ("code_challenge_method=S256" : String) = "code_challenge_method=" ++ "S256")]
    simp [String.append_assoc]
    rw [← String.append_assoc "&code_challenge_method=S256" "&state=" st]
    simp
  · refine jsIncludes_of_decomp_suffix _
      ("https://login.microsoftonline.com/" ++ tenantId ++ "/oauth2/v2.0/authorize"
        ++ "?client_id=" ++ clientId
        ++ "&scope=" ++ String.intercalate " " (scopes.getD defaultScopes)
        ++ "&redirect_uri=" ++ redirectUri
        ++ "&code_challenge=" ++ generateCodeChallenge sha256 verifier
        ++ "&code_challenge_method=" ++ "S256"
        ++ "&")
      ("state=" ++ st) ?_
    rw [(by decide : ("&state=" : String) = "&" ++ "state=")]
    simp [String.append_assoc]
    rw [← String.append_assoc "&code_challenge_method=S256&" "state=" st]
    simp

/-- C8: the ensure-API-access gate re-fetches the backend JWT exactly when
the cached `apiToken` is absent or `apiTokenExpiresAt` is within
5 * 60 * 1000 ms of now (so a JWT expiring in 30 seconds is re-fetched);
when no re-fetch is needed no external call is made; and a re-fetch calls
`refreshAccessToken` first and the enrichment endpoint, with the refreshed
provider access token, only after the refresh confirmed the provider
token. -/
theorem c8_ensure_api_access_gate (s : Session) (u : UserData) (now : Int)
    (refreshOutcome : Except Unit (Option AuthResult))
    (enrich : EnrichResponse) (verify : Except Unit JwtPayload)
    (hu : s.user = some u) :
    (u.apiToken = none → apiTokenNeedsRefresh u now = true) ∧
    (∀ t e, u.apiToken = some t → t ≠ "" → u.apiTokenExpiresAt = some e → e ≠ 0 →
      (apiTokenNeedsRefresh u now = true ↔ e - now < 5 * 60 * 1000)) ∧
    (apiTokenNeedsRefresh u now = false →
      (ensureUserHasApiAccess s now refreshOutcome enrich verify).2.2 = []) ∧
    (apiTokenNeedsRefresh u now = true →
      (ensureUserHasApiAccess s now refreshOutcome enrich verify).2.2.head? =
        some .refreshAccessTokenCall) ∧
    (apiTokenNeedsRefresh u now = true → refreshOutcome = .ok none →
      ensureUserHasApiAccess s now refreshOutcome enrich verify =
        (.redirectedToLogin, s, [.refreshAccessTokenCall])) ∧
    (∀ a, apiTokenNeedsRefresh u now = true → refreshOutcome = .ok (some a) →
      (ensureUserHasApiAccess s now refreshOutcome enrich verify).2.2 =
        [.refreshAccessTokenCall, .enrichTokenFetch a.accessToken]) := by
  have hsome : ∀ a, apiTokenNeedsRefresh u now = true →
      refreshOutcome = Except.ok (some a) →
      (ensureUserHasApiAccess s now refreshOutcome enrich verify).2.2 =
        [GateEffect.refreshAccessTokenCall, GateEffect.enrichTokenFetch a.accessToken] := by
    intro a h hro
    subst hro
    simp only [ensureUserHasApiAccess, hu, h, if_true]
    split
    · rfl
    · split
      · rfl
      · split <;> rfl
  have hnone : apiTokenNeedsRefresh u now = true → refreshOutcome = Except.ok none →
      ensureUserHasApiAccess s now refreshOutcome enrich verify =
        (.redirectedToLogin, s, [.refreshAccessTokenCall]) := by
    intro h hro
    subst hro
    simp [ensureUserHasApiAccess, hu, h]
  refine ⟨?_, ?_, ?_, ?_, hnone, hsome⟩
  · intro h
    simp [apiTokenNeedsRefresh, jsTruthyStr, h]
  · intro t e ht hte hex he0
    simp [apiTokenNeedsRefresh, jsTruthyStr, jsTruthyInt, ht, hte, hex, he0]
  · intro h
    simp only [ensureUserHasApiAccess, hu, h]
    simp only [Bool.false_eq_true, if_false]
    split <;> rfl
  · intro h
    rcases refreshOutcome with e | o
    · simp [ensureUserHasApiAccess, hu, h]
    · rcases o with _ | a
      · rw [hnone h rfl]
        rfl
      · rw [hsome a h rfl]
        rfl

/-- Witness for C8: a JWT expiring in 30 seconds is re-fetched, refresh
first, enrichment second with the refreshed provider token. -/
theorem c8_ensure_api_access_gate_witness :
    apiTokenNeedsRefresh sampleUser sampleNow = true ∧
    (ensureUserHasApiAccess sampleUserSession sampleNow sampleRefreshOk sampleEnrich
        (.ok samplePayload)).2.2 =
      [GateEffect.refreshAccessTokenCall, GateEffect.enrichTokenFetch "provider-token"] := by
  have h := c8_ensure_api_access_gate sampleUserSession sampleUser sampleNow
    sampleRefreshOk sampleEnrich (.ok samplePayload) rfl
  have hneed : apiTokenNeedsRefresh sampleUser sampleNow = true :=
    (h.2.1 "jwt" 1000030000 rfl (by decide) rfl (by decide)).mpr (by decide)
  refine ⟨hneed, ?_⟩
  exact h.2.2.2.2.2
    { account := some { homeAccountId := "uid-1.tenant-1", username := "u1" },
      accessToken := "provider-token", uniqueId := "uid" } hneed rfl

/-- The two metadata cache keys of one `(clientId, tenantId)` pair are
distinct. -/
theorem discoveryKey_ne_authorityKey (clientId tenantId : String) :
    discoveryKey clientId tenantId ≠ authorityKey clientId tenantId := by
  intro h
  have hd := congrArg String.data h
  simp only [discoveryKey, authorityKey, String.data_append, List.append_assoc] at hd
  have h1 := List.append_cancel_left hd
  have h2 := List.append_cancel_left h1
  have h3 := List.append_cancel_left h2
  exact absurd h3 (by decide)

/-- C7: on a cache miss of either key, `getMetadata` fetches both
documents (fetch counter advances by exactly 2) and writes both back to
the cache before returning; the immediately following call is served
entirely from the two cache entries — whatever the network oracle would
answer — with no further fetch and no state change. -/
theorem c7_getMetadata_cache_idempotent (clientId tenantId cloudJson oidcJson : String)
    (env : MetaEnv) (f1 f2 : Except Unit String)
    (hfail : env.backend.failing = false)
    (hmiss : metadataCached env.backend clientId tenantId = false)
    (hcj : cloudJson ≠ "") (hoj : oidcJson ≠ "") :
    (getMetadata clientId tenantId (.ok cloudJson) (.ok oidcJson) env).1 =
      .ok ⟨cloudJson, oidcJson⟩ ∧
    (getMetadata clientId tenantId (.ok cloudJson) (.ok oidcJson) env).2.fetchCount =
      env.fetchCount + 2 ∧
    redisGet (getMetadata clientId tenantId (.ok cloudJson) (.ok oidcJson) env).2.backend
      (discoveryKey clientId tenantId) = .ok (some cloudJson) ∧
    redisGet (getMetadata clientId tenantId (.ok cloudJson) (.ok oidcJson) env).2.backend
      (authorityKey clientId tenantId) = .ok (some oidcJson) ∧
    getMetadata clientId tenantId f1 f2
        (getMetadata clientId tenantId (.ok cloudJson) (.ok oidcJson) env).2 =
      (.ok ⟨cloudJson, oidcJson⟩,
        (getMetadata clientId tenantId (.ok cloudJson) (.ok oidcJson) env).2) := by
  have hne := discoveryKey_ne_authorityKey clientId tenantId
  have hm : (jsTruthy (jsOfRedis ((env.backend.store.find?
        fun kv => kv.1 = discoveryKey clientId tenantId).map fun kv => kv.2)) &&
      jsTruthy (jsOfRedis ((env.backend.store.find?
        fun kv => kv.1 = authorityKey clientId tenantId).map fun kv => kv.2))) = false := by
    simpa [metadataCached, redisGet, hfail] using hmiss
  rcases bool_and_false hm with h | h <;>
    refine ⟨?_, ?_, ?_, ?_, ?_⟩ <;>
      simp [getMetadata, redisGet, redisSet, hfail, h, hne, Ne.symm hne,
        show jsTruthy (JsVal.vobj cloudJson) = true from rfl,
        show jsTruthy (JsVal.vobj oidcJson) = true from rfl,
        show jsToMetaString (JsVal.vobj cloudJson) = cloudJson from rfl,
        show jsToMetaString (JsVal.vobj oidcJson) = oidcJson from rfl,
        show jsOfRedis (some cloudJson) = JsVal.vstr cloudJson from rfl,
        show jsOfRedis (some oidcJson) = JsVal.vstr oidcJson from rfl,
        show jsTruthy (JsVal.vstr cloudJson) = true by simp [jsTruthy, hcj],
        show jsTruthy (JsVal.vstr oidcJson) = true by simp [jsTruthy, hoj],
        show jsToMetaString (JsVal.vstr cloudJson) = cloudJson from rfl,
        show jsToMetaString (JsVal.vstr oidcJson) = oidcJson from rfl,
        show jsonStringify (JsVal.vobj cloudJson) = cloudJson from rfl,
        show jsonStringify (JsVal.vobj oidcJson) = oidcJson from rfl]

/-- Witness for C7 starting from an empty cache; the second call is handed
a network oracle that would fail, and still succeeds from cache. -/
theorem c7_getMetadata_cache_idempotent_witness :
    (getMetadata "client" "tenant" (.ok "cloudjson") (.ok "oidcjson") {}).1 =
      .ok ⟨"cloudjson", "oidcjson"⟩ ∧
    (getMetadata "client" "tenant" (.ok "cloudjson") (.ok "oidcjson") {}).2.fetchCount =
      MetaEnv.fetchCount {} + 2 ∧
    getMetadata "client" "tenant" (.error ()) (.error ())
        (getMetadata "client" "tenant" (.ok "cloudjson") (.ok "oidcjson") {}).2 =
      (.ok ⟨"cloudjson", "oidcjson"⟩,
        (getMetadata "client" "tenant" (.ok "cloudjson") (.ok "oidcjson") {}).2) := by
  have h := c7_getMetadata_cache_idempotent "client" "tenant" "cloudjson" "oidcjson" {}
    (.error ()) (.error ()) rfl rfl (by decide) (by decide)
  exact ⟨h.1, h.2.1, h.2.2.2.2⟩

end Auth
